import Mathlib

/-!
# Verification of the CLIque chat application's connection/room engine

Shallow embedding of the repository's Rust sources:

* `src/src/protocol.rs` — the wire envelope (`read_message` / `write_message`):
  a 5-byte header `[version, 4-byte big-endian body length]` followed by a
  length-delimited body.
* `src/src/server.rs` — `ChatRoom` (membership, token map, message log,
  broadcast channel), `ChatServer`, and the per-connection dispatch loop
  `handle_connection`.
* `src/client/src/client.rs` — the client reader task's handling of
  `MessageBroadcast`.

Bytes are modelled as natural numbers, UUIDs as natural numbers minted from
counters (fresh-id generation with negligible collision probability is modelled
as a strictly increasing counter), and the `tokio` broadcast channel as a
publish log together with per-subscriber cursors.
-/

/-! ## Wire codec: body serialization

Modelled from the spec: the shared `protocol` crate defining the full message
catalog (`ProtocolMessage` with `MessageBroadcast` and `ErrorResponse`,
`ChatMessage`, `ErrorCode`) that `server.rs` and `client.rs` import is not in
the repository; only a stale `src/src/protocol.rs` (without those variants) and
the crate's callers are present.  The body encoding is modelled from the spec's
description: a self-describing serialized value, tag discriminator followed by
the fields, schema-stable and round-trip faithful. -/

/-- Error codes carried by `ErrorResponse` (spec §3 `ErrorCode`). -/
inductive ErrorCode where
  | WrongPassword
  | PasswordMissing
  | ChatNotFound
  | InvalidFormat
  | Unauthorized
  | UserAlreadyInRoom
  | UserAlreadyInAnotherRoom
  | InternalError
deriving DecidableEq, Repr

/-- A (username, message) pair: `ChatMessage` in `server.rs`, the payload of
`MessageBroadcast` and an entry of a room's message log. -/
structure ChatMessage where
  username : String
  message : String
deriving DecidableEq, Repr

/-- Structured application-level error (`ErrorResponse` in `server.rs`). -/
structure ErrorResponse where
  code : ErrorCode
  message : String
deriving DecidableEq, Repr

/-- The tagged message catalog (spec §3 `Message`).  Chat ids and tokens are
UUIDs in the source, modelled as naturals. -/
inductive ProtocolMessage where
  | CreateChatRequest (password : Option String)
  | CreateChatResponse (chat_id : Nat)
  | JoinChatRequest (chat_id : Nat) (username : String) (password : Option String)
  | JoinChatResponse (token : Nat)
  | SendMessageRequest (chat_id : Nat) (token : Nat) (message : String)
  | SendMessageResponse
  | LeaveChatRequest (chat_id : Nat) (token : Nat)
  | LeaveChatResponse
  | MessageBroadcast (chat : ChatMessage)
  | ErrorResponse (err : ErrorResponse)
deriving DecidableEq, Repr

/-- A framed packet: version byte plus message (`Packet` in `protocol.rs`). -/
structure Packet where
  version : Nat
  message : ProtocolMessage
deriving DecidableEq, Repr

/-- Big-endian 4-byte encoding of a natural (the `u32::to_be_bytes` of
`n as u32`, i.e. of `n % 2^32`). -/
def be32 (n : Nat) : List Nat :=
  [n % 2 ^ 32 / 2 ^ 24, n % 2 ^ 24 / 2 ^ 16, n % 2 ^ 16 / 2 ^ 8, n % 2 ^ 8]

/-- Read 4 bytes as a big-endian `u32` (`u32::from_be_bytes`). -/
def parse4 : List Nat → Option (Nat × List Nat)
  | b3 :: b2 :: b1 :: b0 :: rest =>
      some (b3 * 2 ^ 24 + b2 * 2 ^ 16 + b1 * 2 ^ 8 + b0, rest)
  | _ => none

/-- Unary length encoding used for modelled UUID fields of the body. -/
def encNat (n : Nat) : List Nat := List.replicate n 1 ++ [0]

def parseNat : List Nat → Option (Nat × List Nat)
  | 0 :: rest => some (0, rest)
  | 1 :: rest =>
      match parseNat rest with
      | some (n, r) => some (n + 1, r)
      | none => none
  | _ => none

/-- A character is serialized as the big-endian 4 bytes of its code point. -/
def encChar (c : Char) : List Nat := be32 c.toNat

def parseChar (l : List Nat) : Option (Char × List Nat) :=
  match parse4 l with
  | some (n, r) => some (Char.ofNat n, r)
  | none => none

/-- A string body field: unary character count, then each character. -/
def encStr (s : String) : List Nat :=
  encNat s.data.length ++ s.data.flatMap encChar

def parseCharsN : Nat → List Nat → Option (List Char × List Nat)
  | 0, l => some ([], l)
  | n + 1, l =>
      match parseChar l with
      | some (c, r) =>
          match parseCharsN n r with
          | some (cs, r') => some (c :: cs, r')
          | none => none
      | none => none

def parseStr (l : List Nat) : Option (String × List Nat) :=
  match parseNat l with
  | some (n, r) =>
      match parseCharsN n r with
      | some (cs, r') => some (String.mk cs, r')
      | none => none
  | none => none

/-- Optional string: presence byte then the string. -/
def encOptStr : Option String → List Nat
  | none => [0]
  | some s => 1 :: encStr s

def parseOptStr : List Nat → Option (Option String × List Nat)
  | 0 :: rest => some (none, rest)
  | 1 :: rest =>
      match parseStr rest with
      | some (s, r) => some (some s, r)
      | none => none
  | _ => none

def encErrorCode : ErrorCode → Nat
  | .WrongPassword => 0
  | .PasswordMissing => 1
  | .ChatNotFound => 2
  | .InvalidFormat => 3
  | .Unauthorized => 4
  | .UserAlreadyInRoom => 5
  | .UserAlreadyInAnotherRoom => 6
  | .InternalError => 7

def parseErrorCode : List Nat → Option (ErrorCode × List Nat)
  | 0 :: rest => some (.WrongPassword, rest)
  | 1 :: rest => some (.PasswordMissing, rest)
  | 2 :: rest => some (.ChatNotFound, rest)
  | 3 :: rest => some (.InvalidFormat, rest)
  | 4 :: rest => some (.Unauthorized, rest)
  | 5 :: rest => some (.UserAlreadyInRoom, rest)
  | 6 :: rest => some (.UserAlreadyInAnotherRoom, rest)
  | 7 :: rest => some (.InternalError, rest)
  | _ => none

/-- Serialize a message body: tag discriminator then the fields in order. -/
def encodeMsg : ProtocolMessage → List Nat
  | .CreateChatRequest password => 1 :: encOptStr password
  | .CreateChatResponse chat_id => 2 :: encNat chat_id
  | .JoinChatRequest chat_id username password =>
      3 :: (encNat chat_id ++ encStr username ++ encOptStr password)
  | .JoinChatResponse token => 4 :: encNat token
  | .SendMessageRequest chat_id token message =>
      5 :: (encNat chat_id ++ encNat token ++ encStr message)
  | .SendMessageResponse => [6]
  | .LeaveChatRequest chat_id token => 7 :: (encNat chat_id ++ encNat token)
  | .LeaveChatResponse => [8]
  | .MessageBroadcast chat => 9 :: (encStr chat.username ++ encStr chat.message)
  | .ErrorResponse err => 10 :: (encErrorCode err.code :: encStr err.message)

/-- Deserialize the body of a `CreateChatRequest` (after its tag). -/
def decodeBody1 (rest : List Nat) : Option (ProtocolMessage × List Nat) :=
  match parseOptStr rest with
  | some (pw, r) => some (.CreateChatRequest pw, r)
  | none => none

def decodeBody2 (rest : List Nat) : Option (ProtocolMessage × List Nat) :=
  match parseNat rest with
  | some (cid, r) => some (.CreateChatResponse cid, r)
  | none => none

def decodeBody3 (rest : List Nat) : Option (ProtocolMessage × List Nat) :=
  match parseNat rest with
  | some (cid, r) =>
      match parseStr r with
      | some (u, r') =>
          match parseOptStr r' with
          | some (pw, r'') => some (.JoinChatRequest cid u pw, r'')
          | none => none
      | none => none
  | none => none

def decodeBody4 (rest : List Nat) : Option (ProtocolMessage × List Nat) :=
  match parseNat rest with
  | some (tok, r) => some (.JoinChatResponse tok, r)
  | none => none

def decodeBody5 (rest : List Nat) : Option (ProtocolMessage × List Nat) :=
  match parseNat rest with
  | some (cid, r) =>
      match parseNat r with
      | some (tok, r') =>
          match parseStr r' with
          | some (m, r'') => some (.SendMessageRequest cid tok m, r'')
          | none => none
      | none => none
  | none => none

def decodeBody7 (rest : List Nat) : Option (ProtocolMessage × List Nat) :=
  match parseNat rest with
  | some (cid, r) =>
      match parseNat r with
      | some (tok, r') => some (.LeaveChatRequest cid tok, r')
      | none => none
  | none => none

def decodeBody9 (rest : List Nat) : Option (ProtocolMessage × List Nat) :=
  match parseStr rest with
  | some (u, r) =>
      match parseStr r with
      | some (m, r') => some (.MessageBroadcast ⟨u, m⟩, r')
      | none => none
  | none => none

def decodeBody10 (rest : List Nat) : Option (ProtocolMessage × List Nat) :=
  match parseErrorCode rest with
  | some (c, r) =>
      match parseStr r with
      | some (m, r') => some (.ErrorResponse ⟨c, m⟩, r')
      | none => none
  | none => none

/-- Deserialize a message body: the tag discriminator selects the variant,
then its fields are deserialized; `none` models a serde failure
(unknown tag / schema mismatch). -/
def decodeBody : List Nat → Option (ProtocolMessage × List Nat)
  | [] => none
  | t :: rest =>
      if t = 1 then decodeBody1 rest
      else if t = 2 then decodeBody2 rest
      else if t = 3 then decodeBody3 rest
      else if t = 4 then decodeBody4 rest
      else if t = 5 then decodeBody5 rest
      else if t = 6 then some (.SendMessageResponse, rest)
      else if t = 7 then decodeBody7 rest
      else if t = 8 then some (.LeaveChatResponse, rest)
      else if t = 9 then decodeBody9 rest
      else if t = 10 then decodeBody10 rest
      else none

/-! ## Wire codec: the envelope (`read_message` / `write_message`,
`src/src/protocol.rs` lines 119-150) -/

/-- Decoding failures: `malformedEnvelope` models an `UnexpectedEof` from
`read_exact` (the stream ends before the header or the declared body length is
satisfied); `schemaMismatch` models a `serde_json::from_slice` failure. -/
inductive ProtocolError where
  | malformedEnvelope
  | schemaMismatch
deriving DecidableEq, Repr

/-- Rust `write_message`: serialize the body, then emit the 5-byte header
`[version, be32 (body.len() as u32)]` followed by the body. -/
def write_message (pkt : Packet) : List Nat :=
  let body := encodeMsg pkt.message
  pkt.version :: be32 body.length ++ body

/-- The body length a stream's header declares (0 when the header is short). -/
def declaredLen : List Nat → Nat
  | _ :: b3 :: b2 :: b1 :: b0 :: _ => b3 * 2 ^ 24 + b2 * 2 ^ 16 + b1 * 2 ^ 8 + b0
  | _ => 0

/-- Rust `read_message`: read exactly 5 header bytes, extract the declared length
`L`, read exactly `L` body bytes, deserialize them; the deserializer must
consume the body exactly.  Returns the decoded packet and the unread rest of
the stream. -/
def read_message (stream : List Nat) :
    Except ProtocolError (Packet × List Nat) :=
  match stream with
  | v :: b3 :: b2 :: b1 :: b0 :: rest =>
      let L := b3 * 2 ^ 24 + b2 * 2 ^ 16 + b1 * 2 ^ 8 + b0
      if rest.length < L then
        .error .malformedEnvelope
      else
        match decodeBody (rest.take L) with
        | some (m, []) => .ok (⟨v, m⟩, rest.drop L)
        | _ => .error .schemaMismatch
  | _ => .error .malformedEnvelope

/-! ## Password hashing (`hash_password` / `verify_password`,
`src/src/server.rs` lines 30-43)

Modelled from the spec: argon2 salted hashing is an opaque hash/verify
capability ("password-hashing primitive selection ... treated as an opaque
hash/verify capability"); only the verification relation is observable:
`verify_password q (hash_password p)` succeeds iff `q = p`.  It is modelled by
an injective hash (the identity on strings) with verification by equality. -/

def hash_password (password : String) : String := password

def verify_password (password stored : String) : Bool := password == stored

/-! ## ChatRoom (`src/src/server.rs` lines 45-125)

`tokens : HashMap<Uuid, String>` is modelled as an association list with
overwrite-on-insert and remove-all-occurrences-of-key semantics (which agree
with `HashMap` on duplicate-free key lists); `users : HashSet<String>`
as a list with membership-guarded insertion; the `broadcast::Sender` as the
log `published` of every message ever sent on the channel, a
`broadcast::Receiver` as a cursor into that log created at `subscribe` time
(so a subscriber only sees messages published after it subscribed); fresh
`Uuid::new_v4()` token minting as the counter `nextToken`. -/

/-- A subscription into a room's broadcast channel: `start` is the publish
count at `subscribe` time, `consumed` counts messages already received. -/
structure Receiver where
  start : Nat
  consumed : Nat
deriving DecidableEq, Repr

structure ChatRoom where
  tokens : List (Nat × String)
  users : List String
  password : Option String
  messages : List ChatMessage
  published : List ChatMessage
  nextToken : Nat
deriving DecidableEq, Repr

/-- Rust `HashMap::insert` (overwrite the key if present). -/
def tokensInsert (t : Nat) (u : String) (m : List (Nat × String)) :
    List (Nat × String) :=
  (t, u) :: m.filter (fun p => p.1 ≠ t)

/-- Rust `HashMap::remove`. -/
def tokensRemove (t : Nat) (m : List (Nat × String)) : List (Nat × String) :=
  m.filter (fun p => p.1 ≠ t)

/-- Rust `HashSet::insert`. -/
def usersInsert (u : String) (s : List String) : List String :=
  if u ∈ s then s else u :: s

/-- Rust `HashSet::remove`. -/
def usersRemove (u : String) (s : List String) : List String :=
  s.filter (fun v => v ≠ u)

/-- Rust `ChatRoom::new` (lines 54-64): empty membership, token map, log and
channel; the password field stores the (already hashed) optional password. -/
def ChatRoom.new (password : Option String) : ChatRoom :=
  { tokens := [], users := [], password := password, messages := [],
    published := [], nextToken := 0 }

/-- The success path of `ChatRoom::join` (lines 90-95): mint a token, insert
token→username and the username, subscribe to the channel. -/
def ChatRoom.joinOk (room : ChatRoom) (username : String) :
    ChatRoom × Except ErrorResponse (Nat × Receiver) :=
  let token := room.nextToken
  ({ room with
      tokens := tokensInsert token username room.tokens,
      users := usersInsert username room.users,
      nextToken := room.nextToken + 1 },
    .ok (token, ⟨room.published.length, 0⟩))

/-- Rust `ChatRoom::join` (lines 66-96).  Returns the room (unchanged on error,
matching the early returns of the Rust) together with either the error or the
minted token and the fresh subscription. -/
def ChatRoom.join (room : ChatRoom) (username : String)
    (password : Option String) :
    ChatRoom × Except ErrorResponse (Nat × Receiver) :=
  if username ∈ room.users then
    (room, .error ⟨.UserAlreadyInRoom, "User already in room!"⟩)
  else
    match room.password with
    | some room_pw_hash =>
        match password with
        | none => (room, .error ⟨.PasswordMissing, "Password missing"⟩)
        | some pw =>
            if verify_password pw room_pw_hash then
              room.joinOk username
            else
              (room, .error ⟨.WrongPassword, "Wrong password"⟩)
    | none => room.joinOk username

/-- Rust `ChatRoom::add_message` (lines 98-114): resolve the token, append the
(username, message) pair to the log and publish the same pair to the channel. -/
def ChatRoom.add_message (room : ChatRoom) (token : Nat) (message : String) :
    ChatRoom × Except ErrorResponse Unit :=
  match room.tokens.lookup token with
  | none => (room, .error ⟨.Unauthorized, "User does not exist in the room"⟩)
  | some username =>
      ({ room with
          messages := room.messages ++ [⟨username, message⟩],
          published := room.published ++ [⟨username, message⟩] },
        .ok ())

/-- Rust `ChatRoom::leave` (lines 116-124): resolve the token, remove the username
from the member set and delete the token mapping. -/
def ChatRoom.leave (room : ChatRoom) (token : Nat) :
    ChatRoom × Except ErrorResponse Unit :=
  match room.tokens.lookup token with
  | none => (room, .error ⟨.Unauthorized, "User does not exist in the room"⟩)
  | some username =>
      ({ room with
          users := usersRemove username room.users,
          tokens := tokensRemove token room.tokens },
        .ok ())

/-! ## ChatServer and the per-connection dispatch
(`src/src/server.rs` lines 127-295)

The registry `chats : HashMap<Uuid, ChatRoom>` is modelled like the token map;
`gen_chat_id()` (a fresh `Uuid::new_v4()`) as the counter `nextChatId`.  The
per-connection local state of `handle_connection` is `message_receiver` and
`current_chat_id`.  Each `tokio::select!` arm is modelled separately: `dispatch`
is the inbound-request arm (returning the responses written to the socket and
whether the connection was terminated), `forwardAll` the broadcast-forwarding
arm. -/

structure ServerState where
  chats : List (Nat × ChatRoom)
  nextChatId : Nat
deriving DecidableEq, Repr

def chatsInsert (cid : Nat) (room : ChatRoom) (m : List (Nat × ChatRoom)) :
    List (Nat × ChatRoom) :=
  (cid, room) :: m.filter (fun p => p.1 ≠ cid)

/-- The local state of one `handle_connection` task (lines 163-164). -/
structure SessionState where
  message_receiver : Option Receiver
  current_chat_id : Option Nat
deriving DecidableEq, Repr

/-- Result of dispatching one inbound request: the updated registry and
session, the packets written back on this connection, and whether the
connection was terminated (the `_ =>` arm, line 242-247). -/
structure DispatchResult where
  server : ServerState
  session : SessionState
  sent : List ProtocolMessage
  closed : Bool
deriving DecidableEq, Repr

/-- The request-dispatch arm of `handle_connection` (lines 168-248),
one inbound message at a time. -/
def dispatch (s : ServerState) (sess : SessionState) :
    ProtocolMessage → DispatchResult
  | .CreateChatRequest password =>
      let chat_id := s.nextChatId
      let hashed_pw := password.map hash_password
      { server := { chats := chatsInsert chat_id (ChatRoom.new hashed_pw) s.chats,
                    nextChatId := s.nextChatId + 1 },
        session := sess,
        sent := [.CreateChatResponse chat_id], closed := false }
  | .JoinChatRequest chat_id username password =>
      if sess.current_chat_id.isSome then
        { server := s, session := sess,
          sent := [.ErrorResponse ⟨.UserAlreadyInAnotherRoom,
                     "User already in another room!"⟩],
          closed := false }
      else
        match s.chats.lookup chat_id with
        | none =>
            { server := s, session := sess,
              sent := [.ErrorResponse ⟨.ChatNotFound, "Chat not found"⟩],
              closed := false }
        | some chat =>
            match chat.join username password with
            | (chat', .ok (token, receiver)) =>
                { server := { s with chats := chatsInsert chat_id chat' s.chats },
                  session := { message_receiver := some receiver,
                               current_chat_id := some chat_id },
                  sent := [.JoinChatResponse token], closed := false }
            | (chat', .error err) =>
                { server := { s with chats := chatsInsert chat_id chat' s.chats },
                  session := sess,
                  sent := [.ErrorResponse err], closed := false }
  | .SendMessageRequest chat_id token message =>
      match s.chats.lookup chat_id with
      | none =>
          { server := s, session := sess,
            sent := [.ErrorResponse ⟨.ChatNotFound, "Chat not found"⟩],
            closed := false }
      | some chat =>
          match chat.add_message token message with
          | (chat', .ok ()) =>
              { server := { s with chats := chatsInsert chat_id chat' s.chats },
                session := sess,
                sent := [.SendMessageResponse], closed := false }
          | (chat', .error err) =>
              { server := { s with chats := chatsInsert chat_id chat' s.chats },
                session := sess,
                sent := [.ErrorResponse err], closed := false }
  | .LeaveChatRequest chat_id token =>
      match s.chats.lookup chat_id with
      | none =>
          { server := s, session := sess,
            sent := [.ErrorResponse ⟨.ChatNotFound, "Chat not found"⟩],
            closed := false }
      | some chat =>
          match chat.leave token with
          | (chat', .ok ()) =>
              { server := { s with chats := chatsInsert chat_id chat' s.chats },
                session := { sess with message_receiver := none },
                sent := [.LeaveChatResponse], closed := false }
          | (chat', .error err) =>
              { server := { s with chats := chatsInsert chat_id chat' s.chats },
                session := sess,
                sent := [.ErrorResponse err], closed := false }
  | _ =>
      { server := s, session := sess, sent := [], closed := true }

/-- Run a sequence of inbound requests through one connection's dispatch loop,
collecting every packet the server writes back on that connection. -/
def runSession : ServerState → SessionState →
    List ProtocolMessage → ServerState × SessionState × List ProtocolMessage
  | s, sess, [] => (s, sess, [])
  | s, sess, req :: reqs =>
      let r := dispatch s sess req
      if r.closed then
        (r.server, r.session, r.sent)
      else
        let (s', sess', out) := runSession r.server r.session reqs
        (s', sess', r.sent ++ out)

/-- The fresh state of a server and of a newly accepted connection. -/
def ServerState.initial : ServerState := { chats := [], nextChatId := 0 }

def SessionState.initial : SessionState :=
  { message_receiver := none, current_chat_id := none }

/-- The broadcasts pending on a session's subscription: everything published
on the subscribed room's channel after the subscription point that the session
has not yet consumed. -/
def sessionPending (s : ServerState) (sess : SessionState) : List ChatMessage :=
  match sess.message_receiver, sess.current_chat_id with
  | some r, some cid =>
      match s.chats.lookup cid with
      | some room => room.published.drop (r.start + r.consumed)
      | none => []
  | _, _ => []

/-- The broadcast-forwarding arm of `handle_connection` (lines 251-264),
drained: every message received on the subscription is written to this
connection's socket as a `MessageBroadcast`, with no filtering. -/
def forwardAll (s : ServerState) (sess : SessionState) : List ProtocolMessage :=
  (sessionPending s sess).map ProtocolMessage.MessageBroadcast

/-- The client reader task's handling of an incoming `MessageBroadcast`
(`src/client/src/client.rs` lines 131-137): it is printed unless the client's
`chat_state` holds a username equal to the broadcast's username. -/
def clientShowsBroadcast (chat_state : Option String) (chat : ChatMessage) :
    Bool :=
  match chat_state with
  | some my_username => chat.username != my_username
  | none => true

/-! ## Codec lemmas -/

theorem parse4_be32 {n : Nat} (h : n < 2 ^ 32) (r : List Nat) :
    parse4 (be32 n ++ r) = some (n, r) := by
  simp only [be32, List.cons_append, List.nil_append, parse4]
  congr 1
  congr 1
  omega

theorem parseChar_encChar (c : Char) (r : List Nat) :
    parseChar (encChar c ++ r) = some (c, r) := by
  unfold parseChar encChar
  rw [parse4_be32 (show c.toNat < 2 ^ 32 from c.val.toNat_lt)]
  simp [Char.ofNat_toNat]

theorem parseNat_encNat (n : Nat) (r : List Nat) :
    parseNat (encNat n ++ r) = some (n, r) := by
  induction n with
  | zero => simp [encNat, parseNat]
  | succ k ih =>
      have h1 : encNat (k + 1) = 1 :: encNat k := by
        simp [encNat, List.replicate_succ]
      rw [h1]
      simp [parseNat, ih]

theorem parseCharsN_enc (cs : List Char) (r : List Nat) :
    parseCharsN cs.length (cs.flatMap encChar ++ r) = some (cs, r) := by
  induction cs with
  | nil => simp [parseCharsN]
  | cons c cs ih =>
      simp only [List.flatMap_cons, List.length_cons, List.append_assoc]
      unfold parseCharsN
      rw [parseChar_encChar]
      dsimp only
      rw [ih]

theorem parseStr_encStr (s : String) (r : List Nat) :
    parseStr (encStr s ++ r) = some (s, r) := by
  unfold parseStr encStr
  rw [List.append_assoc, parseNat_encNat]
  dsimp only
  rw [parseCharsN_enc]

theorem parseOptStr_encOptStr (o : Option String) (r : List Nat) :
    parseOptStr (encOptStr o ++ r) = some (o, r) := by
  cases o with
  | none => simp [encOptStr, parseOptStr]
  | some s =>
      show parseOptStr (1 :: (encStr s ++ r)) = some (some s, r)
      simp only [parseOptStr]
      rw [parseStr_encStr]

theorem parseErrorCode_encErrorCode (c : ErrorCode) (r : List Nat) :
    parseErrorCode (encErrorCode c :: r) = some (c, r) := by
  cases c <;> rfl

theorem decodeBody_encodeMsg (m : ProtocolMessage) (r : List Nat) :
    decodeBody (encodeMsg m ++ r) = some (m, r) := by
  cases m <;>
    simp [encodeMsg, decodeBody, decodeBody1, decodeBody2, decodeBody3,
      decodeBody4, decodeBody5, decodeBody7, decodeBody9, decodeBody10,
      parseNat_encNat, parseStr_encStr, parseOptStr_encOptStr,
      parseErrorCode_encErrorCode]

theorem be32_arith {n : Nat} (h : n < 2 ^ 32) :
    n % 2 ^ 32 / 2 ^ 24 * 2 ^ 24 + n % 2 ^ 24 / 2 ^ 16 * 2 ^ 16 +
      n % 2 ^ 16 / 2 ^ 8 * 2 ^ 8 + n % 2 ^ 8 = n := by
  omega

theorem decodeBody_encodeMsg_nil (m : ProtocolMessage) :
    decodeBody (encodeMsg m) = some (m, []) := by
  simpa using decodeBody_encodeMsg m []

/-- Round trip of the envelope: writing a packet and reading it back from the
front of a stream yields the packet and leaves the rest of the stream, as long
as the body fits the `u32` length field. -/
theorem read_message_write_message (pkt : Packet) (extra : List Nat)
    (h : (encodeMsg pkt.message).length < 2 ^ 32) :
    read_message (write_message pkt ++ extra) = .ok (pkt, extra) := by
  unfold write_message read_message
  simp only [be32, List.cons_append, List.nil_append, List.append_assoc]
  rw [be32_arith h]
  rw [if_neg (by simp)]
  rw [List.take_left, List.drop_left, decodeBody_encodeMsg_nil]

/-- Claim C9: a stream that ends before the 5 header bytes, or before the declared
body length `L` is satisfied, makes `read_message` fail with a malformed
envelope — it never returns a message parsed from a partial body
(`read_exact` fails with `UnexpectedEof` before deserialization is tried). -/
theorem claim_C9_truncated (stream : List Nat)
    (h : stream.length < 5 + declaredLen stream) :
    read_message stream = .error .malformedEnvelope := by
  match stream with
  | [] => rfl
  | [_] => rfl
  | [_, _] => rfl
  | [_, _, _] => rfl
  | [_, _, _, _] => rfl
  | v :: b3 :: b2 :: b1 :: b0 :: rest =>
      unfold read_message
      dsimp only
      rw [if_pos]
      unfold declaredLen at h
      simp only [List.length_cons] at h
      omega

/-! ## Association-list lemmas for the token map -/

theorem lookup_cons_ne {t k : Nat} (v : String) (l : List (Nat × String))
    (h : ¬t = k) : List.lookup t ((k, v) :: l) = List.lookup t l := by
  have hb : (t == k) = false := by simp [h]
  simp [List.lookup, hb]

theorem lookup_cons_self {t : Nat} (v : String) (l : List (Nat × String)) :
    List.lookup t ((t, v) :: l) = some v := by
  simp [List.lookup]

theorem lookup_tokensRemove (t : Nat) (l : List (Nat × String)) :
    (tokensRemove t l).lookup t = none := by
  induction l with
  | nil => rfl
  | cons p l ih =>
      obtain ⟨k, v⟩ := p
      by_cases h : k = t
      · simpa [tokensRemove, List.filter_cons, h] using ih
      · rw [tokensRemove, List.filter_cons]
        simp only [ne_eq, h, not_false_eq_true, decide_True, if_true]
        rw [lookup_cons_ne v _ (Ne.symm h)]
        exact ih

theorem mem_of_lookup_eq_some {l : List (Nat × String)} {t : Nat} {u : String}
    (h : l.lookup t = some u) : (t, u) ∈ l := by
  induction l with
  | nil => cases h
  | cons p l ih =>
      obtain ⟨k, v⟩ := p
      by_cases hk : t = k
      · subst hk
        rw [lookup_cons_self] at h
        simp [← Option.some_inj.mp h]
      · rw [lookup_cons_ne v l hk] at h
        exact List.mem_cons_of_mem _ (ih h)

theorem lookup_isSome_iff {l : List (Nat × String)} {t : Nat} :
    (l.lookup t).isSome ↔ ∃ u, (t, u) ∈ l := by
  induction l with
  | nil => simp [List.lookup]
  | cons p l ih =>
      obtain ⟨k, v⟩ := p
      by_cases hk : t = k
      · subst hk
        rw [lookup_cons_self]
        simp
      · rw [lookup_cons_ne v l hk]
        rw [ih]
        constructor
        · rintro ⟨u, hu⟩
          exact ⟨u, List.mem_cons_of_mem _ hu⟩
        · rintro ⟨u, hu⟩
          rcases List.mem_cons.mp hu with h1 | h1
          · exact absurd (congrArg Prod.fst h1) hk
          · exact ⟨u, h1⟩

/-! ## Claims about `ChatRoom::join`, `add_message`, `leave` -/

/-- Claim C4: when the username is already in the room's member set, `join` fails
`UserAlreadyInRoom` for every supplied password value (the membership check
precedes the password checks), and the room — member set, token map, message
log, password — is unchanged. -/
theorem claim_C4_join_membership_precedence (room : ChatRoom) (u : String)
    (pw : Option String) (h : u ∈ room.users) :
    room.join u pw =
      (room, .error ⟨.UserAlreadyInRoom, "User already in room!"⟩) := by
  unfold ChatRoom.join
  rw [if_pos h]

theorem claim_C4_witness :
    ("alice" ∈ (((ChatRoom.new none).join "alice" none).1).users) ∧
    (((ChatRoom.new none).join "alice" none).1).join "alice" (some "pw") =
      ((((ChatRoom.new none).join "alice" none).1),
        .error ⟨.UserAlreadyInRoom, "User already in room!"⟩) :=
  ⟨by decide,
   claim_C4_join_membership_precedence
     (((ChatRoom.new none).join "alice" none).1) "alice" (some "pw")
     (by decide)⟩

/-- A successful `leave` removed the token's mapping from the token map. -/
theorem leave_ok_tokens {room room' : ChatRoom} {t : Nat}
    (h : room.leave t = (room', .ok ())) :
    room'.tokens = tokensRemove t room.tokens := by
  unfold ChatRoom.leave at h
  cases hu : room.tokens.lookup t with
  | none =>
      rw [hu] at h
      injection h with h1 h2
      exact Except.noConfusion h2
  | some u =>
      rw [hu] at h
      injection h with h1 h2
      rw [← h1]

/-- Claim C5: a token is usable for `send` (`add_message`) or `leave` iff it is in
the room's token map; a successful `leave` deletes the mapping, and both
operations with that token subsequently fail `Unauthorized`. -/
theorem claim_C5_token_validity (room : ChatRoom) (t : Nat) (m : String) :
    ((room.tokens.lookup t).isSome →
       (room.add_message t m).2 = .ok () ∧ (room.leave t).2 = .ok ()) ∧
    (room.tokens.lookup t = none →
       (room.add_message t m).2 =
         .error ⟨.Unauthorized, "User does not exist in the room"⟩ ∧
       (room.leave t).2 =
         .error ⟨.Unauthorized, "User does not exist in the room"⟩) ∧
    (∀ room', room.leave t = (room', .ok ()) →
       room'.tokens.lookup t = none ∧
       (room'.add_message t m).2 =
         .error ⟨.Unauthorized, "User does not exist in the room"⟩ ∧
       (room'.leave t).2 =
         .error ⟨.Unauthorized, "User does not exist in the room"⟩) := by
  refine ⟨?_, ?_, ?_⟩
  · intro hs
    obtain ⟨u, hu⟩ := Option.isSome_iff_exists.mp hs
    unfold ChatRoom.add_message ChatRoom.leave
    rw [hu]
    exact ⟨rfl, rfl⟩
  · intro hn
    unfold ChatRoom.add_message ChatRoom.leave
    rw [hn]
    exact ⟨rfl, rfl⟩
  · intro room' hleave
    have ht : room'.tokens = tokensRemove t room.tokens := leave_ok_tokens hleave
    have hnone : room'.tokens.lookup t = none := by
      rw [ht]
      exact lookup_tokensRemove t room.tokens
    refine ⟨hnone, ?_, ?_⟩
    · unfold ChatRoom.add_message
      rw [hnone]
    · unfold ChatRoom.leave
      rw [hnone]

theorem claim_C5_witness :
    ((((ChatRoom.new none).join "alice" none).1.leave 0).1.tokens.lookup 0
        = none ∧
     ((((ChatRoom.new none).join "alice" none).1.leave 0).1.add_message 0
          "hi").2 =
       .error ⟨.Unauthorized, "User does not exist in the room"⟩ ∧
     ((((ChatRoom.new none).join "alice" none).1.leave 0).1.leave 0).2 =
       .error ⟨.Unauthorized, "User does not exist in the room"⟩) :=
  (claim_C5_token_validity (((ChatRoom.new none).join "alice" none).1) 0
      "hi").2.2
    ((((ChatRoom.new none).join "alice" none).1.leave 0).1) (by rfl)

/-- Claim C6: with a token present in the token map, `add_message` succeeds and
appends exactly the (resolved username, text) pair to the end of the message
log while publishing the same pair to the broadcast channel; with an absent
token it fails `Unauthorized` and the room (in particular the log) is
unchanged. -/
theorem claim_C6_send (room : ChatRoom) (t : Nat) (m : String) :
    (∀ u, room.tokens.lookup t = some u →
       room.add_message t m =
         ({ room with
             messages := room.messages ++ [⟨u, m⟩],
             published := room.published ++ [⟨u, m⟩] }, .ok ())) ∧
    (room.tokens.lookup t = none →
       room.add_message t m =
         (room, .error ⟨.Unauthorized, "User does not exist in the room"⟩)) := by
  constructor
  · intro u hu
    unfold ChatRoom.add_message
    rw [hu]
  · intro hn
    unfold ChatRoom.add_message
    rw [hn]

theorem claim_C6_witness :
    (((ChatRoom.new none).join "alice" none).1.tokens.lookup 0
        = some "alice" ∧
     ((ChatRoom.new none).join "alice" none).1.add_message 0 "hi" =
       ({ ((ChatRoom.new none).join "alice" none).1 with
           messages :=
             ((ChatRoom.new none).join "alice" none).1.messages ++
               [⟨"alice", "hi"⟩],
           published :=
             ((ChatRoom.new none).join "alice" none).1.published ++
               [⟨"alice", "hi"⟩] }, .ok ())) :=
  ⟨by rfl,
   (claim_C6_send (((ChatRoom.new none).join "alice" none).1) 0 "hi").1
     "alice" (by rfl)⟩

/-- Claim C3 counterexample: in a password-protected room whose member set already
contains the username, a join with a wrong supplied password fails
`UserAlreadyInRoom`, not `WrongPassword` — the membership check runs first. -/
theorem claim_C3_counterexample :
    ((((ChatRoom.new (some (hash_password "secret"))).join "alice"
          (some "secret")).1.join "alice" (some "wrong")).2 =
        .error ⟨.UserAlreadyInRoom, "User already in room!"⟩) ∧
    (ErrorCode.UserAlreadyInRoom ≠ ErrorCode.WrongPassword) := by
  constructor
  · rfl
  · decide

/-- Claim C3 amended: for a username not already in the member set — the
membership check precedes the password checks — joining a room storing a
password hash with a wrong password fails `WrongPassword`, with no password
fails `PasswordMissing`; joining an open room succeeds with any supplied
password value, the unnecessary password being ignored. -/
theorem claim_C3_amended (room : ChatRoom) (u p q : String)
    (pw : Option String) (hu : u ∉ room.users) :
    (room.password = some (hash_password p) →
       (q ≠ p →
         (room.join u (some q)).2 =
           .error ⟨.WrongPassword, "Wrong password"⟩) ∧
       (room.join u none).2 =
         .error ⟨.PasswordMissing, "Password missing"⟩) ∧
    (room.password = none →
       (room.join u pw).2 = .ok (room.nextToken, ⟨room.published.length, 0⟩)) := by
  constructor
  · intro hpw
    constructor
    · intro hq
      unfold ChatRoom.join
      rw [if_neg hu, hpw]
      dsimp only
      have hv : verify_password q (hash_password p) = false := by
        unfold verify_password hash_password
        simpa using hq
      rw [hv]
      simp
    · unfold ChatRoom.join
      rw [if_neg hu, hpw]
  · intro hpw
    unfold ChatRoom.join
    rw [if_neg hu, hpw]
    cases pw <;> rfl

theorem claim_C3_amended_witness :
    ("alice" ∉ (ChatRoom.new (some (hash_password "secret"))).users) ∧
    (((ChatRoom.new (some (hash_password "secret"))).join "alice"
        (some "wrong")).2 = .error ⟨.WrongPassword, "Wrong password"⟩) ∧
    (((ChatRoom.new (some (hash_password "secret"))).join "alice" none).2 =
      .error ⟨.PasswordMissing, "Password missing"⟩) ∧
    (((ChatRoom.new none).join "bob" (some "extra")).2 =
      .ok ((ChatRoom.new none).nextToken,
        ⟨(ChatRoom.new none).published.length, 0⟩)) := by
  refine ⟨by decide, ?_, ?_, ?_⟩
  · exact ((claim_C3_amended (ChatRoom.new (some (hash_password "secret")))
      "alice" "secret" "wrong" none (by decide)).1 rfl).1 (by decide)
  · exact ((claim_C3_amended (ChatRoom.new (some (hash_password "secret")))
      "alice" "secret" "wrong" none (by decide)).1 rfl).2
  · exact (claim_C3_amended (ChatRoom.new none) "bob" "x" "y"
      (some "extra") (by decide)).2 rfl

/-- The claimed invariant: the member set is exactly the set of usernames
appearing as values of the token map, and no two distinct tokens resolve to
the same username. -/
def ChatRoom.TokenMapInv (room : ChatRoom) : Prop :=
  (∀ u, u ∈ room.users ↔ ∃ t, (t, u) ∈ room.tokens) ∧
  (∀ t₁ t₂ u, (t₁, u) ∈ room.tokens → (t₂, u) ∈ room.tokens → t₁ = t₂)

/-- Auxiliary strengthening: minted tokens are fresh (all keys below the
counter) and the token map's keys are duplicate-free (`HashMap` keys are). -/
def ChatRoom.InvAux (room : ChatRoom) : Prop :=
  (∀ p ∈ room.tokens, p.1 < room.nextToken) ∧
  (room.tokens.map Prod.fst).Nodup

def ChatRoom.Inv (room : ChatRoom) : Prop := room.TokenMapInv ∧ room.InvAux

theorem keys_nodup_functional {l : List (Nat × String)}
    (h : (l.map Prod.fst).Nodup) {t : Nat} {u v : String}
    (h1 : (t, u) ∈ l) (h2 : (t, v) ∈ l) : u = v := by
  induction l with
  | nil => cases h1
  | cons p l ih =>
      obtain ⟨hp, hl⟩ := List.nodup_cons.mp h
      rcases List.mem_cons.mp h1 with e1 | m1
      · rcases List.mem_cons.mp h2 with e2 | m2
        · exact congrArg Prod.snd (e1.trans e2.symm)
        · exfalso
          apply hp
          rw [show p.1 = t from congrArg Prod.fst e1.symm]
          exact List.mem_map_of_mem Prod.fst m2
      · rcases List.mem_cons.mp h2 with e2 | m2
        · exfalso
          apply hp
          rw [show p.1 = t from congrArg Prod.fst e2.symm]
          exact List.mem_map_of_mem Prod.fst m1
        · exact ih hl m1 m2

theorem inv_new (pw : Option String) : (ChatRoom.new pw).Inv := by
  refine ⟨⟨?_, ?_⟩, ?_, ?_⟩ <;> simp [ChatRoom.new]

theorem joinOk_inv (room : ChatRoom) (u : String) (hInv : room.Inv)
    (hu : u ∉ room.users) : (room.joinOk u).1.Inv := by
  obtain ⟨⟨hmem, hinj⟩, hfresh, hnd⟩ := hInv
  have htok : tokensInsert room.nextToken u room.tokens =
      (room.nextToken, u) :: room.tokens := by
    unfold tokensInsert
    congr 1
    apply List.filter_eq_self.mpr
    intro p hp
    simpa using Nat.ne_of_lt (hfresh p hp)
  have husers : usersInsert u room.users = u :: room.users := by
    unfold usersInsert
    rw [if_neg hu]
  unfold ChatRoom.Inv ChatRoom.TokenMapInv ChatRoom.InvAux ChatRoom.joinOk
  dsimp only
  rw [htok, husers]
  refine ⟨⟨?_, ?_⟩, ?_, ?_⟩
  · intro v
    constructor
    · intro hv
      rcases List.mem_cons.mp hv with e | m
      · exact ⟨room.nextToken, by rw [e]; exact List.mem_cons_self _ _⟩
      · obtain ⟨t, ht⟩ := (hmem v).mp m
        exact ⟨t, List.mem_cons_of_mem _ ht⟩
    · rintro ⟨t, ht⟩
      rcases List.mem_cons.mp ht with e | m
      · rw [show v = u from congrArg Prod.snd e]
        exact List.mem_cons_self _ _
      · exact List.mem_cons_of_mem _ ((hmem v).mpr ⟨t, m⟩)
  · intro t₁ t₂ v h1 h2
    rcases List.mem_cons.mp h1 with e1 | m1 <;>
      rcases List.mem_cons.mp h2 with e2 | m2
    · exact (congrArg Prod.fst e1).trans (congrArg Prod.fst e2).symm
    · exact absurd ((hmem u).mpr ⟨t₂, (show v = u from congrArg Prod.snd e1) ▸ m2⟩) hu
    · exact absurd ((hmem u).mpr ⟨t₁, (show v = u from congrArg Prod.snd e2) ▸ m1⟩) hu
    · exact hinj t₁ t₂ v m1 m2
  · intro p hp
    rcases List.mem_cons.mp hp with e | m
    · rw [congrArg Prod.fst e]
      exact Nat.lt_succ_self _
    · exact Nat.lt_succ_of_lt (hfresh p m)
  · simp only [List.map_cons]
    refine List.nodup_cons.mpr ⟨?_, hnd⟩
    intro hmem'
    obtain ⟨p, hp, he⟩ := List.mem_map.mp hmem'
    exact absurd he (Nat.ne_of_lt (hfresh p hp))

theorem join_inv (room : ChatRoom) (u : String) (pw : Option String)
    (hInv : room.Inv) : (room.join u pw).1.Inv := by
  unfold ChatRoom.join
  by_cases h : u ∈ room.users
  · rw [if_pos h]
    exact hInv
  · rw [if_neg h]
    cases room.password with
    | none => exact joinOk_inv room u hInv h
    | some hsh =>
        cases pw with
        | none => exact hInv
        | some q =>
            dsimp only
            by_cases hv : verify_password q hsh
            · rw [if_pos hv]
              exact joinOk_inv room u hInv h
            · rw [if_neg hv]
              exact hInv

theorem add_message_inv (room : ChatRoom) (t : Nat) (m : String)
    (hInv : room.Inv) : (room.add_message t m).1.Inv := by
  unfold ChatRoom.add_message
  cases room.tokens.lookup t with
  | none => exact hInv
  | some u => exact hInv

theorem leave_inv (room : ChatRoom) (t : Nat) (hInv : room.Inv) :
    (room.leave t).1.Inv := by
  obtain ⟨⟨hmem, hinj⟩, hfresh, hnd⟩ := hInv
  unfold ChatRoom.leave
  cases hl : room.tokens.lookup t with
  | none => exact ⟨⟨hmem, hinj⟩, hfresh, hnd⟩
  | some u =>
      have htu : (t, u) ∈ room.tokens := mem_of_lookup_eq_some hl
      dsimp only
      unfold ChatRoom.Inv ChatRoom.TokenMapInv ChatRoom.InvAux
      refine ⟨⟨?_, ?_⟩, ?_, ?_⟩
      · intro v
        unfold usersRemove tokensRemove
        constructor
        · intro hv
          obtain ⟨hv1, hv2⟩ := List.mem_filter.mp hv
          have hvu : v ≠ u := by simpa using hv2
          obtain ⟨t', ht'⟩ := (hmem v).mp hv1
          refine ⟨t', List.mem_filter.mpr ⟨ht', ?_⟩⟩
          simp only [ne_eq, decide_eq_true_eq]
          intro he
          exact hvu (keys_nodup_functional hnd (he ▸ ht') htu)
        · rintro ⟨t', ht'⟩
          obtain ⟨ht1, ht2⟩ := List.mem_filter.mp ht'
          have htt : t' ≠ t := by simpa using ht2
          refine List.mem_filter.mpr ⟨(hmem v).mpr ⟨t', ht1⟩, ?_⟩
          simp only [ne_eq, decide_eq_true_eq]
          intro hvu
          exact htt (hinj t' t v ht1 (hvu ▸ htu))
      · intro t₁ t₂ v h1 h2
        exact hinj t₁ t₂ v (List.mem_filter.mp h1).1 (List.mem_filter.mp h2).1
      · intro p hp
        exact hfresh p (List.mem_filter.mp hp).1
      · exact List.Nodup.sublist
          (List.Sublist.map Prod.fst (List.filter_sublist _)) hnd

/-- Claim C10: the invariant — member set equals exactly the usernames appearing as
values of the token map, and no two distinct tokens resolve to the same
username (together with the freshness/key-uniqueness facts that make it
inductive) — is established by `ChatRoom::new` and kept by `join`,
`add_message` and `leave`. -/
theorem claim_C10_invariant (pw : Option String) (room : ChatRoom)
    (u m : String) (p : Option String) (t : Nat) (hInv : room.Inv) :
    (ChatRoom.new pw).Inv ∧ (room.join u p).1.Inv ∧
    (room.add_message t m).1.Inv ∧ (room.leave t).1.Inv :=
  ⟨inv_new pw, join_inv room u p hInv, add_message_inv room t m hInv,
   leave_inv room t hInv⟩

theorem claim_C10_witness :
    (ChatRoom.new none).Inv ∧
    ((ChatRoom.new (some "pw")).join "alice" (some "pw")).1.Inv ∧
    ((ChatRoom.new (some "pw")).add_message 0 "hi").1.Inv ∧
    ((ChatRoom.new (some "pw")).leave 0).1.Inv :=
  claim_C10_invariant none (ChatRoom.new (some "pw")) "alice" "hi"
    (some "pw") 0 (inv_new (some "pw"))

/-! ## Claims about the connection session (`handle_connection`) -/

/-- Claim C1: evaluating the session dispatch at the claimed scenario.  After
`create; join; leave` on one connection, the successful leave clears
`message_receiver` but not `current_chat_id` (server.rs line 234), so the
rejoin of the same username on the same connection is rejected
`UserAlreadyInAnotherRoom` — even though the room itself would accept the
rejoin and would mint a different token (1, not the original 0). -/
theorem claim_C1_leave_keeps_session_joined :
    ((runSession ServerState.initial SessionState.initial
        [.CreateChatRequest none, .JoinChatRequest 0 "alice" none,
         .LeaveChatRequest 0 0, .JoinChatRequest 0 "alice" none]).2.2 =
      [.CreateChatResponse 0, .JoinChatResponse 0, .LeaveChatResponse,
       .ErrorResponse ⟨.UserAlreadyInAnotherRoom,
         "User already in another room!"⟩]) ∧
    ((runSession ServerState.initial SessionState.initial
        [.CreateChatRequest none, .JoinChatRequest 0 "alice" none,
         .LeaveChatRequest 0 0]).2.1 =
      ⟨none, some 0⟩) ∧
    (∃ room,
      (runSession ServerState.initial SessionState.initial
          [.CreateChatRequest none, .JoinChatRequest 0 "alice" none,
           .LeaveChatRequest 0 0]).1.chats.lookup 0 = some room ∧
      room.users = [] ∧
      (room.join "alice" none).2 = .ok (1, ⟨0, 0⟩) ∧ (1 : Nat) ≠ 0) := by
  refine ⟨rfl, rfl, ⟨_, rfl, rfl, rfl, by decide⟩⟩

/-- Claim C7 counterexample: on a connection whose session is already joined, a
`JoinChatRequest` naming an absent chat id is rejected
`UserAlreadyInAnotherRoom` (the session check precedes the registry lookup),
not `ChatNotFound`. -/
theorem claim_C7_counterexample :
    ((runSession ServerState.initial SessionState.initial
        [.CreateChatRequest none, .JoinChatRequest 0 "alice" none,
         .JoinChatRequest 99 "bob" none]).2.2 =
      [.CreateChatResponse 0, .JoinChatResponse 0,
       .ErrorResponse ⟨.UserAlreadyInAnotherRoom,
         "User already in another room!"⟩]) ∧
    ((runSession ServerState.initial SessionState.initial
        [.CreateChatRequest none,
         .JoinChatRequest 0 "alice" none]).1.chats.lookup 99 = none) ∧
    ErrorCode.UserAlreadyInAnotherRoom ≠ ErrorCode.ChatNotFound := by
  refine ⟨rfl, rfl, by decide⟩

/-- Claim C7 amended: a `SendMessageRequest` or `LeaveChatRequest` naming a chat
id absent from the registry always yields `ChatNotFound`, and a
`JoinChatRequest` does so provided the session is `Unjoined` (a joined
session is rejected `UserAlreadyInAnotherRoom` before the registry lookup);
in every case the registry and session are unchanged — no room is created. -/
theorem claim_C7_amended (s : ServerState) (sess : SessionState)
    (cid t : Nat) (u m : String) (pw : Option String)
    (h : s.chats.lookup cid = none) :
    (sess.current_chat_id = none →
       dispatch s sess (.JoinChatRequest cid u pw) =
         ⟨s, sess, [.ErrorResponse ⟨.ChatNotFound, "Chat not found"⟩],
           false⟩) ∧
    (dispatch s sess (.SendMessageRequest cid t m) =
       ⟨s, sess, [.ErrorResponse ⟨.ChatNotFound, "Chat not found"⟩],
         false⟩) ∧
    (dispatch s sess (.LeaveChatRequest cid t) =
       ⟨s, sess, [.ErrorResponse ⟨.ChatNotFound, "Chat not found"⟩],
         false⟩) := by
  refine ⟨?_, ?_, ?_⟩
  · intro hc
    unfold dispatch
    rw [hc]
    dsimp only [Option.isSome]
    rw [if_neg (by simp), h]
  · unfold dispatch
    dsimp only
    rw [h]
  · unfold dispatch
    dsimp only
    rw [h]

theorem claim_C7_witness :
    (ServerState.initial.chats.lookup 7 = none) ∧
    (SessionState.initial.current_chat_id = none) ∧
    dispatch ServerState.initial SessionState.initial
        (.JoinChatRequest 7 "alice" none) =
      ⟨ServerState.initial, SessionState.initial,
        [.ErrorResponse ⟨.ChatNotFound, "Chat not found"⟩], false⟩ ∧
    dispatch ServerState.initial SessionState.initial
        (.SendMessageRequest 7 0 "hi") =
      ⟨ServerState.initial, SessionState.initial,
        [.ErrorResponse ⟨.ChatNotFound, "Chat not found"⟩], false⟩ ∧
    dispatch ServerState.initial SessionState.initial
        (.LeaveChatRequest 7 0) =
      ⟨ServerState.initial, SessionState.initial,
        [.ErrorResponse ⟨.ChatNotFound, "Chat not found"⟩], false⟩ :=
  ⟨rfl, rfl,
   (claim_C7_amended ServerState.initial SessionState.initial 7 0 "alice"
       "hi" none rfl).1 rfl,
   (claim_C7_amended ServerState.initial SessionState.initial 7 0 "alice"
       "hi" none rfl).2.1,
   (claim_C7_amended ServerState.initial SessionState.initial 7 0 "alice"
       "hi" none rfl).2.2⟩

/-- Two-connection scenario, step 1: connection A creates an open room. -/
def scnCreate : DispatchResult :=
  dispatch ServerState.initial SessionState.initial (.CreateChatRequest none)

/-- Step 2: user `a` joins room 0 on connection A (token 0). -/
def scnJoinA (a : String) : DispatchResult :=
  dispatch scnCreate.server scnCreate.session (.JoinChatRequest 0 a none)

/-- Step 3: user `b` joins room 0 on connection B (token 1). -/
def scnJoinB (a b : String) : DispatchResult :=
  dispatch (scnJoinA a).server SessionState.initial (.JoinChatRequest 0 b none)

/-- Step 4: user `a` sends `text` on connection A with its token 0. -/
def scnSend (a b text : String) : DispatchResult :=
  dispatch (scnJoinB a b).server (scnJoinA a).session
    (.SendMessageRequest 0 0 text)

/-- Claim C2 counterexample: the server-side forwarding path (server.rs lines
251-264) does not filter by username — after alice sends, alice's own
connection also receives the `MessageBroadcast` back, contradicting
"A's connection receives none". -/
theorem claim_C2_counterexample :
    forwardAll (scnSend "alice" "bob" "hi").server
        (scnJoinA "alice").session =
      [.MessageBroadcast ⟨"alice", "hi"⟩] ∧
    forwardAll (scnSend "alice" "bob" "hi").server
        (scnJoinA "alice").session ≠ [] := by
  refine ⟨rfl, by decide⟩

/-- Claim C2 amended: when users `a` and `b` are joined to the same room and `a`
sends, `b`'s connection receives exactly one `MessageBroadcast` carrying
`a`'s username and the text — and so does `a`'s own connection: the server
forwards a session's subscribed broadcasts unfiltered.  The own-echo
suppression lives in the client (client.rs lines 131-137), whose reader skips
displaying a broadcast whose username equals its own, so `a` displays
nothing while `b` displays the message. -/
theorem claim_C2_amended (a b text : String) (hab : b ≠ a) :
    forwardAll (scnSend a b text).server (scnJoinB a b).session =
      [.MessageBroadcast ⟨a, text⟩] ∧
    forwardAll (scnSend a b text).server (scnJoinA a).session =
      [.MessageBroadcast ⟨a, text⟩] ∧
    clientShowsBroadcast (some a) ⟨a, text⟩ = false ∧
    clientShowsBroadcast (some b) ⟨a, text⟩ = true := by
  refine ⟨?_, ?_, ?_, ?_⟩
  · simp [forwardAll, sessionPending, scnSend, scnJoinB, scnJoinA, scnCreate,
      dispatch, ChatRoom.join, ChatRoom.joinOk, ChatRoom.new,
      ChatRoom.add_message, tokensInsert, usersInsert, chatsInsert,
      ServerState.initial, SessionState.initial, List.lookup, hab]
  · simp [forwardAll, sessionPending, scnSend, scnJoinB, scnJoinA, scnCreate,
      dispatch, ChatRoom.join, ChatRoom.joinOk, ChatRoom.new,
      ChatRoom.add_message, tokensInsert, usersInsert, chatsInsert,
      ServerState.initial, SessionState.initial, List.lookup, hab]
  · simp [clientShowsBroadcast]
  · simp [clientShowsBroadcast, Ne.symm hab]

theorem claim_C2_amended_witness :
    ("bob" : String) ≠ "alice" ∧
    (forwardAll (scnSend "alice" "bob" "hi").server
        (scnJoinB "alice" "bob").session =
      [.MessageBroadcast ⟨"alice", "hi"⟩] ∧
    forwardAll (scnSend "alice" "bob" "hi").server
        (scnJoinA "alice").session =
      [.MessageBroadcast ⟨"alice", "hi"⟩] ∧
    clientShowsBroadcast (some "alice") ⟨"alice", "hi"⟩ = false ∧
    clientShowsBroadcast (some "bob") ⟨"alice", "hi"⟩ = true) :=
  ⟨by decide, claim_C2_amended "alice" "bob" "hi" (by decide)⟩

theorem claim_C9_witness :
    (([1, 0, 0, 0, 5, 1, 2] : List Nat).length <
        5 + declaredLen [1, 0, 0, 0, 5, 1, 2]) ∧
    read_message [1, 0, 0, 0, 5, 1, 2] = .error .malformedEnvelope :=
  ⟨by decide, claim_C9_truncated [1, 0, 0, 0, 5, 1, 2] (by decide)⟩

/-- Claim C8: for every message variant with arbitrary valid field values (any
strings, any `ErrorCode`), reading back a written packet yields the packet
(`decode (encode m) = m`), the encoding is the 5-byte header followed by the
body, and the header's big-endian `u32` length field equals the serialized
body size exactly (which requires the body to fit in a `u32`, as `write` casts
`body.len()` with `as u32`). -/
theorem claim_C8_roundtrip (v : Nat) (m : ProtocolMessage)
    (h : (encodeMsg m).length < 2 ^ 32) :
    read_message (write_message ⟨v, m⟩) = .ok (⟨v, m⟩, []) ∧
    (write_message ⟨v, m⟩).length = 5 + (encodeMsg m).length ∧
    declaredLen (write_message ⟨v, m⟩) = (encodeMsg m).length := by
  refine ⟨?_, ?_, ?_⟩
  · simpa using read_message_write_message ⟨v, m⟩ [] h
  · simp [write_message, be32]
    omega
  · simp only [write_message, be32, List.cons_append, List.nil_append,
      declaredLen]
    exact be32_arith h

theorem claim_C8_witness :
    ((encodeMsg (.ErrorResponse ⟨.InternalError, ""⟩)).length < 2 ^ 32) ∧
    (read_message (write_message ⟨1, .ErrorResponse ⟨.InternalError, ""⟩⟩) =
       .ok (⟨1, .ErrorResponse ⟨.InternalError, ""⟩⟩, []) ∧
     (write_message ⟨1, .ErrorResponse ⟨.InternalError, ""⟩⟩).length =
       5 + (encodeMsg (.ErrorResponse ⟨.InternalError, ""⟩)).length ∧
     declaredLen (write_message ⟨1, .ErrorResponse ⟨.InternalError, ""⟩⟩) =
       (encodeMsg (.ErrorResponse ⟨.InternalError, ""⟩)).length) :=
  ⟨by decide, claim_C8_roundtrip 1 (.ErrorResponse ⟨.InternalError, ""⟩)
    (by decide)⟩
